import Mathlib

/-!
Verification of the Unified-ID SDK's signature-construction and
chain-reader logic. Bytes are modelled as `Nat` values below 256 in
`List Nat`; 64-bit lanes as `Nat` reduced modulo `2 ^ 64`. Every
definition is a direct translation of the corresponding JavaScript
source function (ethers.js primitives — `defaultAbiCoder.encode`,
`solidityPack`, `keccak256`, `signMessage` — are modelled at the byte
level; ECDSA itself is abstracted into the wallet's signing function).
-/

namespace UIDSDK

/-! ## Byte-level utilities -/

/-- Big-endian byte string of fixed width `k` for `n` (truncating above
`2 ^ (8 * k)`), as ethers encodes a `uint256` with `k = 32`. -/
def beBytes : Nat → Nat → List Nat
  | 0, _ => []
  | k + 1, n => beBytes k (n / 256) ++ [n % 256]

/-- Little-endian byte string of fixed width `k` for `n`. -/
def leBytes : Nat → Nat → List Nat
  | 0, _ => []
  | k + 1, n => n % 256 :: leBytes k (n / 256)

/-- The spec's "nonce encoded as a big-endian 32-byte unsigned integer",
written independently of `beBytes` (little-endian digits, reversed). -/
def specNonceBE32 (n : Nat) : List Nat :=
  (leBytes 32 n).reverse

theorem beBytes_eq_reverse_leBytes (k n : Nat) :
    beBytes k n = (leBytes k n).reverse := by
  induction k generalizing n with
  | zero => rfl
  | succ k ih => simp [beBytes, leBytes, ih]

/-- UTF-8 encoding of one Unicode scalar value. -/
def charUtf8 (c : Char) : List Nat :=
  let n := c.toNat
  if n < 0x80 then [n]
  else if n < 0x800 then [0xC0 + n / 0x40, 0x80 + n % 0x40]
  else if n < 0x10000 then
    [0xE0 + n / 0x1000, 0x80 + n / 0x40 % 0x40, 0x80 + n % 0x40]
  else
    [0xF0 + n / 0x40000, 0x80 + n / 0x1000 % 0x40, 0x80 + n / 0x40 % 0x40,
     0x80 + n % 0x40]

/-- UTF-8 bytes of a string (all SDK string fields are UTF-8). -/
def utf8Bytes (s : String) : List Nat :=
  s.data.flatMap charUtf8

/-- Zero-pad a byte string on the right up to a multiple of 32 bytes, as the
ABI pads dynamic `string` data. -/
def padRight32 (bs : List Nat) : List Nat :=
  bs ++ List.replicate ((32 - bs.length % 32) % 32) 0

/-- Value of one hexadecimal digit (0 for non-hex characters, which do not
occur in well-formed addresses). -/
def hexDigitVal (c : Char) : Nat :=
  if 48 ≤ c.toNat ∧ c.toNat ≤ 57 then c.toNat - 48
  else if 97 ≤ c.toNat ∧ c.toNat ≤ 102 then c.toNat - 87
  else if 65 ≤ c.toNat ∧ c.toNat ≤ 70 then c.toNat - 55
  else 0

/-- `true` iff `p` is an initial segment of `l`. -/
def listStartsWith (p l : List Char) : Bool :=
  l.take p.length == p

/-- Numeric value of a `0x`-prefixed hexadecimal address string, as ethers
parses an `address` argument before ABI-encoding it. -/
def parseHexAddress (s : String) : Nat :=
  let digits := if listStartsWith ['0', 'x'] s.data then s.data.drop 2 else s.data
  digits.foldl (fun acc c => acc * 16 + hexDigitVal c) 0

/-- ASCII lower-casing of one character (JavaScript `toLowerCase` on the
hex addresses the SDK compares). -/
def asciiLower (c : Char) : Char :=
  if 65 ≤ c.toNat ∧ c.toNat ≤ 90 then Char.ofNat (c.toNat + 32) else c

/-- JavaScript `String.prototype.toLowerCase` restricted to ASCII. -/
def jsToLower (s : String) : String :=
  ⟨s.data.map asciiLower⟩

/-! ## Keccak-256 (the hash behind `ethers.utils.keccak256`)

State: 25 lanes of 64 bits, lane `(x, y)` stored at index `x + 5 * y`.
All lane arithmetic is `Nat` kept below `2 ^ 64`. -/

/-- 64-bit left rotation by `r` (for `r ≤ 64`). -/
def rotl64 (r n : Nat) : Nat :=
  (n * 2 ^ r) % 2 ^ 64 ||| n / 2 ^ (64 - r)

/-- 64-bit bitwise complement. -/
def comp64 (n : Nat) : Nat :=
  Nat.xor n (2 ^ 64 - 1)

/-- Lane `(x, y)` of a Keccak state. -/
def lane (A : List Nat) (x y : Nat) : Nat :=
  A.getD (x % 5 + 5 * (y % 5)) 0

/-- Keccak θ step. -/
def keccakTheta (A : List Nat) : List Nat :=
  let C := (List.range 5).map fun x =>
    Nat.xor (lane A x 0) (Nat.xor (lane A x 1)
      (Nat.xor (lane A x 2) (Nat.xor (lane A x 3) (lane A x 4))))
  let D := fun x => Nat.xor (C.getD ((x + 4) % 5) 0) (rotl64 1 (C.getD ((x + 1) % 5) 0))
  (List.range 25).map fun i => Nat.xor (A.getD i 0) (D (i % 5))

/-- Rotation offsets of the ρ step, indexed by `x + 5 * y`: walking
`(x, y) ← (y, 2x + 3y mod 5)` from `(1, 0)`, step `t` receives the
triangular rotation `(t+1)(t+2)/2 mod 64`; lane `(0, 0)` stays at 0. -/
def rhoOffsets : List Nat :=
  ((List.range 24).foldl
    (fun (acc : (Nat × Nat) × List Nat) t =>
      let x := acc.1.1
      let y := acc.1.2
      ((y, (2 * x + 3 * y) % 5), acc.2.set (x + 5 * y) ((t + 1) * (t + 2) / 2 % 64)))
    ((1, 0), List.replicate 25 0)).2

/-- Combined ρ and π steps: `B[y, 2x+3y] = rotl(ρ[x,y], A[x,y])`. -/
def keccakRhoPi (A : List Nat) : List Nat :=
  (List.range 25).map fun i =>
    let xt := i % 5
    let yt := i / 5
    let x := (xt + 3 * yt) % 5
    let y := xt
    rotl64 (rhoOffsets.getD (x + 5 * y) 0) (lane A x y)

/-- Keccak χ step. -/
def keccakChi (B : List Nat) : List Nat :=
  (List.range 25).map fun i =>
    let x := i % 5
    let y := i / 5
    Nat.xor (lane B x y) (Nat.land (comp64 (lane B (x + 1) y)) (lane B (x + 2) y))

/-- The Keccak bit-generator LFSR over `x^8 + x^6 + x^5 + x^4 + 1`. -/
def rcLfsr : Nat → Nat
  | 0 => 1
  | t + 1 =>
    let r := rcLfsr t
    if 128 ≤ r then Nat.xor (r * 2 % 256) 0x71 else r * 2

/-- ι round constant `i`: bit `rc(j + 7i)` placed at position `2^j - 1`
for `j = 0, ..., 6`. -/
def keccakRC (i : Nat) : Nat :=
  (List.range 7).foldl (fun acc j => acc ||| rcLfsr (j + 7 * i) % 2 * 2 ^ (2 ^ j - 1)) 0

/-- Round constants of the ι step. -/
def roundConstants : List Nat :=
  (List.range 24).map keccakRC

/-- One Keccak-f round. -/
def keccakRound (A : List Nat) (rc : Nat) : List Nat :=
  let X := keccakChi (keccakRhoPi (keccakTheta A))
  X.set 0 (Nat.xor (X.getD 0 0) rc)

/-- The Keccak-f[1600] permutation (24 rounds). -/
def keccakF (A : List Nat) : List Nat :=
  roundConstants.foldl keccakRound A

/-- A 64-bit lane from 8 little-endian bytes. -/
def bytesToLane (bs : List Nat) : Nat :=
  bs.foldr (fun b acc => b + 256 * acc) 0

/-- Keccak-256 of a byte string: pad10*1 (domain byte `0x01`), absorb at
rate 136, squeeze 32 bytes. -/
def keccak256 (m : List Nat) : List Nat :=
  let q := 136 - m.length % 136
  let padded :=
    if q = 1 then m ++ [0x81]
    else m ++ 0x01 :: List.replicate (q - 2) 0 ++ [0x80]
  let nblocks := padded.length / 136
  let finalState := (List.range nblocks).foldl
    (fun st i =>
      let block := (padded.drop (136 * i)).take 136
      let lanes := (List.range 17).map fun j => bytesToLane ((block.drop (8 * j)).take 8)
      keccakF ((List.range 25).map fun j =>
        if j < 17 then Nat.xor (st.getD j 0) (lanes.getD j 0) else st.getD j 0))
    (List.replicate 25 0)
  (List.range 32).map fun i => finalState.getD (i / 8) 0 / 256 ^ (i % 8) % 256

/-! ## ABI encoding (`ethers.utils.defaultAbiCoder` / `solidityPack`) -/

/-- `defaultAbiCoder.encode(['string', 'address'], [s, a])`: a two-word head
(offset `0x40` to the dynamic string, then the address left-padded to a
word) followed by the string's length word and zero-padded UTF-8 data. -/
def abiEncodeStringAddress (s a : String) : List Nat :=
  beBytes 32 64 ++ beBytes 32 (parseHexAddress a) ++
    beBytes 32 (utf8Bytes s).length ++ padRight32 (utf8Bytes s)

/-- `defaultAbiCoder.encode(['string', 'string'], [s1, s2])`: two offset
words, then each string's length word and zero-padded UTF-8 data. -/
def abiEncodeStringString (s1 s2 : String) : List Nat :=
  let tail1 := beBytes 32 (utf8Bytes s1).length ++ padRight32 (utf8Bytes s1)
  let tail2 := beBytes 32 (utf8Bytes s2).length ++ padRight32 (utf8Bytes s2)
  beBytes 32 64 ++ beBytes 32 (64 + tail1.length) ++ tail1 ++ tail2

/-- `defaultAbiCoder.encode(['uint256', 'uint256'], [n, d])`: two static
words. -/
def abiEncodeUintPair (n d : Nat) : List Nat :=
  beBytes 32 n ++ beBytes 32 d

/-- `ethers.utils.solidityPack(['bytes', 'uint256'], [inner, nonce])`: the
raw bytes followed by the 32-byte big-endian integer, with no padding
between them. -/
def solidityPackBytesUint256 (inner : List Nat) (nonce : Nat) : List Nat :=
  inner ++ beBytes 32 nonce

/-! ## Wallets and EIP-191 signing -/

/-- A wallet: its hex address string (as `ethers.Wallet.address`) and its
ECDSA signing primitive over a 32-byte digest, abstracted as a function
(the key never leaves the wallet). -/
structure Wallet where
  address : String
  ecdsaSign : List Nat → List Nat

/-- The EIP-191 personal-message digest:
`keccak256("\x19Ethereum Signed Message:\n" ++ length ++ message)`. -/
def eip191Digest (msg : List Nat) : List Nat :=
  keccak256 (utf8Bytes ("\x19Ethereum Signed Message:\n" ++ toString msg.length) ++ msg)

/-- `wallet.signMessage(bytes)`: EIP-191-prefix the message, hash, and
ECDSA-sign the digest. -/
def signMessage (w : Wallet) (msg : List Nat) : List Nat :=
  w.ecdsaSign (eip191Digest msg)

/-! ## Packed-hash digests (src/index.js `createSignature` family) -/

/-- The 32-byte digest of `createSignature`:
`keccak256(solidityPack(['bytes','uint256'], [abi.encode(string,address), nonce]))`. -/
def createSignatureHash (unifiedId userAddress : String) (nonce : Nat) : List Nat :=
  keccak256 (solidityPackBytesUint256 (abiEncodeStringAddress unifiedId userAddress) nonce)

/-- The 32-byte digest of `createPrimaryChangeSignature` (same construction,
over the new primary address). -/
def createPrimaryChangeHash (unifiedId newAddress : String) (nonce : Nat) : List Nat :=
  keccak256 (solidityPackBytesUint256 (abiEncodeStringAddress unifiedId newAddress) nonce)

/-- The 32-byte digest of `createRemoveSecondarySignature` (same
construction, over the secondary address being removed). -/
def createRemoveSecondaryHash (unifiedId secondaryAddress : String) (nonce : Nat) : List Nat :=
  keccak256 (solidityPackBytesUint256 (abiEncodeStringAddress unifiedId secondaryAddress) nonce)

/-- The 32-byte digest of `createUpdateUnifiedIdSignature`:
the tuple is `(string oldUnifiedId, string newUnifiedId)`. -/
def createUpdateUnifiedIdHash (oldUnifiedId newUnifiedId : String) (nonce : Nat) : List Nat :=
  keccak256 (solidityPackBytesUint256 (abiEncodeStringString oldUnifiedId newUnifiedId) nonce)

/-- `createSignature`: EIP-191-sign the registration digest. -/
def createSignature (unifiedId userAddress : String) (nonce : Nat) (w : Wallet) : List Nat :=
  signMessage w (createSignatureHash unifiedId userAddress nonce)

/-- `createPrimaryChangeSignature`: EIP-191-sign the primary-change digest. -/
def createPrimaryChangeSignature (unifiedId newAddress : String) (nonce : Nat)
    (w : Wallet) : List Nat :=
  signMessage w (createPrimaryChangeHash unifiedId newAddress nonce)

/-- `createRemoveSecondarySignature`: EIP-191-sign the remove-secondary
digest. -/
def createRemoveSecondarySignature (unifiedId secondaryAddress : String) (nonce : Nat)
    (w : Wallet) : List Nat :=
  signMessage w (createRemoveSecondaryHash unifiedId secondaryAddress nonce)

/-- `createUpdateUnifiedIdSignature`: EIP-191-sign the update digest. -/
def createUpdateUnifiedIdSignature (oldUnifiedId newUnifiedId : String) (nonce : Nat)
    (w : Wallet) : List Nat :=
  signMessage w (createUpdateUnifiedIdHash oldUnifiedId newUnifiedId nonce)

/-! ## Options blob -/

/-- The default `deadlineOffset` of `createOptions` (one hour). -/
def createOptionsDefaultOffset : Nat := 3600

/-- `createOptions(nonce, deadlineOffset)`: ABI-encode
`(uint256 nonce, uint256 now + deadlineOffset)`; `now` is
`Math.floor(Date.now() / 1000)`, passed explicitly here. -/
def createOptions (nonce deadlineOffset now : Nat) : List Nat :=
  abiEncodeUintPair nonce (now + deadlineOffset)

/-! ## Operation builders (src/index.js)

Each builder is modelled as a pure function of its parameters, the SDK
config, and a chain environment supplying the `getNonce` outcome and
the clock. Alongside the result it returns the ordered list of external
effects it performed (nonce reads, signing calls, HTTP posts), so "before
the signer is invoked" is a statement about the trace. The JavaScript
functions catch every internal throw and resolve to
`{success: false, error}`; that shape is `Except.error message` here. -/

/-- SDK configuration (only the field the payloads embed). -/
structure Config where
  chainId : String

/-- The chain environment: per-identifier `getNonce` outcome (an `error`
models the combined throw after both accessor names fail) and the clock
`Math.floor(Date.now() / 1000)`. -/
structure ChainEnv where
  nonce : String → Except String Nat
  now : Nat

/-- An external effect performed by a builder, in order. -/
inductive Effect where
  | nonceRead (unifiedId : String)
  | ecdsa (signerAddress : String) (digest : List Nat)
  | httpPost (endpoint : String)

/-- Payload posted by `registerUnifiedId` to `/set-unifiedid`. -/
structure RegisterPayload where
  chainId : String
  unifiedId : String
  userAddress : String
  nonce : String
  action : String
  masterSignature : List Nat
  primarySignature : List Nat
  options : List Nat

/-- `registerUnifiedId`: read the nonce, sign the registration digest once
with the supplied wallet, and post the payload. -/
def registerUnifiedId (unifiedId : String) (wallet : Wallet) (cfg : Config)
    (env : ChainEnv) : Except String RegisterPayload × List Effect :=
  let userAddress := wallet.address
  match env.nonce unifiedId with
  | .error e => (.error e, [.nonceRead unifiedId])
  | .ok n =>
    let hash := createSignatureHash unifiedId userAddress n
    let signature := signMessage wallet hash
    let options := createOptions n createOptionsDefaultOffset env.now
    (.ok { chainId := cfg.chainId, unifiedId := unifiedId, userAddress := userAddress,
           nonce := toString n, action := "initiate-register-unifiedid",
           masterSignature := signature, primarySignature := signature,
           options := options },
     [.nonceRead unifiedId, .ecdsa wallet.address hash, .httpPost "/set-unifiedid"])

/-- Payload posted by `addSecondaryAddress` to `/add-secondary-address`. -/
structure AddSecondaryPayload where
  action : String
  unifiedId : String
  secondaryAddress : String
  nonce : String
  primarySignature : List Nat
  secondarySignature : List Nat
  chainId : String
  options : List Nat

/-- `addSecondaryAddress`: read the nonce, have both the primary and the
secondary wallet sign the digest over `(unifiedId, secondaryAddress, nonce)`,
and post both signatures. -/
def addSecondaryAddress (unifiedId : String) (primaryWallet secondaryWallet : Wallet)
    (cfg : Config) (env : ChainEnv) : Except String AddSecondaryPayload × List Effect :=
  let secondaryAddress := secondaryWallet.address
  match env.nonce unifiedId with
  | .error e => (.error e, [.nonceRead unifiedId])
  | .ok n =>
    let hash := createSignatureHash unifiedId secondaryAddress n
    let primarySignature := signMessage primaryWallet hash
    let secondarySignature := signMessage secondaryWallet hash
    let options := createOptions n createOptionsDefaultOffset env.now
    (.ok { action := "initiate-add-secondary-address", unifiedId := unifiedId,
           secondaryAddress := secondaryAddress, nonce := toString n,
           primarySignature := primarySignature,
           secondarySignature := secondarySignature,
           chainId := cfg.chainId, options := options },
     [.nonceRead unifiedId, .ecdsa primaryWallet.address hash,
      .ecdsa secondaryWallet.address hash, .httpPost "/add-secondary-address"])

/-- Payload posted by `changePrimaryAddress` to `/update-primary-address`. -/
structure ChangePrimaryPayload where
  chainId : String
  unifiedId : String
  newPrimaryAddress : String
  nonce : String
  deadline : Nat
  currentPrimarySignature : List Nat
  newPrimarySignature : List Nat
  options : List Nat

/-- `changePrimaryAddress`: reject equal (case-insensitive) addresses
before any effect, else read the nonce, have both wallets sign the
primary-change digest, and post. -/
def changePrimaryAddress (unifiedId : String) (currentWallet newWallet : Wallet)
    (cfg : Config) (env : ChainEnv) : Except String ChangePrimaryPayload × List Effect :=
  let currentAddress := currentWallet.address
  let newAddress := newWallet.address
  if jsToLower currentAddress = jsToLower newAddress then
    (.error "Current and new addresses cannot be the same", [])
  else
    match env.nonce unifiedId with
    | .error e => (.error e, [.nonceRead unifiedId])
    | .ok n =>
      let hash := createPrimaryChangeHash unifiedId newAddress n
      let currentSignature := signMessage currentWallet hash
      let newSignature := signMessage newWallet hash
      let deadline := env.now + 3600
      let options := abiEncodeUintPair n deadline
      (.ok { chainId := cfg.chainId, unifiedId := unifiedId,
             newPrimaryAddress := newAddress, nonce := toString n,
             deadline := deadline, currentPrimarySignature := currentSignature,
             newPrimarySignature := newSignature, options := options },
       [.nonceRead unifiedId, .ecdsa currentWallet.address hash,
        .ecdsa newWallet.address hash, .httpPost "/update-primary-address"])

/-- Payload posted by `removeSecondaryAddress` to `/remove-secondary-address`. -/
structure RemoveSecondaryPayload where
  action : String
  chainId : String
  unifiedId : String
  secondaryAddress : String
  nonce : String
  signature : List Nat
  options : List Nat

/-- `removeSecondaryAddress`: read the nonce, sign the remove-secondary
digest with the primary wallet, and post. -/
def removeSecondaryAddress (unifiedId secondaryAddress : String) (primaryWallet : Wallet)
    (cfg : Config) (env : ChainEnv) : Except String RemoveSecondaryPayload × List Effect :=
  match env.nonce unifiedId with
  | .error e => (.error e, [.nonceRead unifiedId])
  | .ok n =>
    let hash := createRemoveSecondaryHash unifiedId secondaryAddress n
    let signature := signMessage primaryWallet hash
    let deadline := env.now + 3600
    let options := abiEncodeUintPair n deadline
    (.ok { action := "initiate-remove-secondary-address", chainId := cfg.chainId,
           unifiedId := unifiedId, secondaryAddress := secondaryAddress,
           nonce := toString n, signature := signature, options := options },
     [.nonceRead unifiedId, .ecdsa primaryWallet.address hash,
      .httpPost "/remove-secondary-address"])

/-- Payload posted by `updateUnifiedId` to `/update-unifiedid`. -/
structure UpdateUnifiedIdPayload where
  action : String
  previousUnifiedId : String
  newUnifiedId : String
  nonce : String
  deadline : Nat
  signature : List Nat
  options : List Nat

/-- `updateUnifiedId`: reject identical old/new identifiers before any
effect, else read the old identifier's nonce, sign the update digest, and
post. -/
def updateUnifiedId (oldUnifiedId newUnifiedId : String) (wallet : Wallet)
    (_cfg : Config) (env : ChainEnv) : Except String UpdateUnifiedIdPayload × List Effect :=
  if oldUnifiedId = newUnifiedId then
    (.error "Old and new unified IDs cannot be the same", [])
  else
    match env.nonce oldUnifiedId with
    | .error e => (.error e, [.nonceRead oldUnifiedId])
    | .ok n =>
      let hash := createUpdateUnifiedIdHash oldUnifiedId newUnifiedId n
      let signature := signMessage wallet hash
      let deadline := env.now + 3600
      let options := abiEncodeUintPair n deadline
      (.ok { action := "initiate-update-unifiedid", previousUnifiedId := oldUnifiedId,
             newUnifiedId := newUnifiedId, nonce := toString n, deadline := deadline,
             signature := signature, options := options },
       [.nonceRead oldUnifiedId, .ecdsa wallet.address hash,
        .httpPost "/update-unifiedid"])

/-! ## Chain-reader utilities (unified-id-utils)

The contract calls are passed in as functions returning `Except`, where
`error` carries the message of whatever the RPC layer threw (a revert or
a transport failure alike). JavaScript falsiness of loosely-typed
parameters is modelled by `JSVal` / `jsFalsy`. -/

/-- A loosely-typed JavaScript parameter value. -/
inductive JSVal where
  | vStr (s : String)
  | vNum (n : Int)
  | vNull
  | vUndefined
deriving DecidableEq

/-- JavaScript falsiness (`!v`) on the values above: empty string, numeric
zero, `null`, `undefined`. The string `"0"` is truthy. -/
def jsFalsy : JSVal → Bool
  | .vStr s => s == ""
  | .vNum n => n == 0
  | .vNull => true
  | .vUndefined => true

/-- Result tuple of the child contract's `resolveAnyAddressToUnifiedId`. -/
structure AddressRole where
  unifiedId : String
  isPrimary : Bool
  isSecondary : Bool
deriving DecidableEq

/-- `resolveAnyAddressToUnifiedId(addressToCheck, ...)`: validate the
parameter, call the child contract, and wrap ANY failure of that call in
`Error("Failed to resolve address to unified ID: " + message)`. -/
def resolveAnyAddressToUnifiedId (addressToCheck : String)
    (childResolve : String → Except String AddressRole) : Except String AddressRole :=
  if addressToCheck = "" then
    .error "addressToCheck is required in resolveAnyAddressToUnifiedId"
  else
    match childResolve addressToCheck with
    | .ok r => .ok r
    | .error e => .error ("Failed to resolve address to unified ID: " ++ e)

/-- `String.prototype.includes`: `sub` occurs contiguously in `s`. -/
def listContainsSub : List Char → List Char → Bool
  | [], sub => listStartsWith sub []
  | c :: t, sub => listStartsWith sub (c :: t) || listContainsSub t sub

/-- `s.includes(sub)` on strings. -/
def strIncludes (s sub : String) : Bool :=
  listContainsSub s.data sub.data

/-- `isPrimaryAddressAlreadyRegistered`: resolve the address's role and
return `isPrimary`; a caught error whose message contains the resolver's
wrapper prefix becomes `false`, anything else is re-thrown. -/
def isPrimaryAddressAlreadyRegistered (addressToCheck : String)
    (childResolve : String → Except String AddressRole) : Except String Bool :=
  if addressToCheck = "" then
    .error "addressToCheck is required in isPrimaryAddressAlreadyRegistered"
  else
    match resolveAnyAddressToUnifiedId addressToCheck childResolve with
    | .ok r => .ok r.isPrimary
    | .error e =>
      if strIncludes e "Failed to resolve address to unified ID" then .ok false
      else .error e

/-- `isSecondaryAddressAlreadyRegistered`: same shape over `isSecondary`. -/
def isSecondaryAddressAlreadyRegistered (addressToCheck : String)
    (childResolve : String → Except String AddressRole) : Except String Bool :=
  if addressToCheck = "" then
    .error "addressToCheck is required in isSecondaryAddressAlreadyRegistered"
  else
    match resolveAnyAddressToUnifiedId addressToCheck childResolve with
    | .ok r => .ok r.isSecondary
    | .error e =>
      if strIncludes e "Failed to resolve address to unified ID" then .ok false
      else .error e

/-- `getRegistrationFees(token, registrarFees, ...)`: reject falsy `token`
then falsy `registrarFees` before the contract call, else return the
storage-util contract's `getRequiredTokenAmount` as a decimal string,
wrapping its failures. -/
def getRegistrationFees (token registrarFees : JSVal)
    (getRequiredTokenAmount : JSVal → JSVal → Except String Nat) : Except String String :=
  if jsFalsy token then
    .error "token is required in getRegistrationFees"
  else if jsFalsy registrarFees then
    .error "registrarFees is required in getRegistrationFees"
  else
    match getRequiredTokenAmount token registrarFees with
    | .ok amount => .ok (toString amount)
    | .error e => .error ("Failed to get registration fees: " ++ e)

/-! ## EIP-712 signature utilities (SignatureUtils) -/

/-- The EIP-712 domain used by the typed-data path. -/
structure Domain where
  name : String
  version : String
  chainId : Nat
  verifyingContract : String

/-- The six typed-data operation kinds of `ENHANCED_TYPES` / `LEGACY_TYPES`. -/
inductive TypeName where
  | registerUnifiedIdT
  | updateUnifiedIdT
  | updatePrimaryAddressT
  | addSecondaryAddressT
  | removeSecondaryAddressT
  | updateMasterAddressT
deriving DecidableEq

/-- Field names of `ENHANCED_TYPES[typeName]`, in declaration order. -/
def enhancedTypeFields : TypeName → List String
  | .registerUnifiedIdT => ["unifiedId", "primaryAddress", "targetChainId", "nonce", "deadline"]
  | .updateUnifiedIdT => ["oldUnifiedId", "newUnifiedId", "targetChainId", "nonce", "deadline"]
  | .updatePrimaryAddressT => ["unifiedId", "newPrimaryAddress", "targetChainId", "nonce", "deadline"]
  | .addSecondaryAddressT => ["unifiedId", "secondaryAddress", "targetChainId", "nonce", "deadline"]
  | .removeSecondaryAddressT => ["unifiedId", "secondaryAddress", "targetChainId", "nonce", "deadline"]
  | .updateMasterAddressT => ["unifiedId", "newMasterAddress", "targetChainId", "nonce", "deadline"]

/-- Field names of `LEGACY_TYPES[typeName]`, in declaration order (no
`targetChainId`). -/
def legacyTypeFields : TypeName → List String
  | .registerUnifiedIdT => ["unifiedId", "primaryAddress", "nonce", "deadline"]
  | .updateUnifiedIdT => ["oldUnifiedId", "newUnifiedId", "nonce", "deadline"]
  | .updatePrimaryAddressT => ["unifiedId", "newPrimaryAddress", "nonce", "deadline"]
  | .addSecondaryAddressT => ["unifiedId", "secondaryAddress", "nonce", "deadline"]
  | .removeSecondaryAddressT => ["unifiedId", "secondaryAddress", "nonce", "deadline"]
  | .updateMasterAddressT => ["unifiedId", "newMasterAddress", "nonce", "deadline"]

/-- The type table selected by `useLegacyTypes`. -/
def typeFields (useLegacyTypes : Bool) (t : TypeName) : List String :=
  if useLegacyTypes then legacyTypeFields t else enhancedTypeFields t

/-- Look up a field of a JavaScript object modelled as an association list. -/
def lookupField (obj : List (String × JSVal)) (k : String) : Option JSVal :=
  (obj.find? fun p => p.1 == k).map Prod.snd

/-- `obj[k] = v`: overwrite the field if present, else append it. -/
def setField (obj : List (String × JSVal)) (k : String) (v : JSVal) : List (String × JSVal) :=
  if (obj.find? fun p => p.1 == k).isSome then
    obj.map fun p => if p.1 == k then (k, v) else p
  else obj ++ [(k, v)]

/-- A field is "missing" for the required-field loop when absent,
`null`, or `undefined`. -/
def isMissingValue : Option JSVal → Bool
  | none => true
  | some .vNull => true
  | some .vUndefined => true
  | some _ => false

/-- The message object handed to `_signTypedData`: the caller's data,
with `targetChainId` added in enhanced mode only. -/
def buildSignData (data : List (String × JSVal)) (targetChainId : Nat)
    (useLegacyTypes : Bool) : List (String × JSVal) :=
  if useLegacyTypes then data
  else setField data "targetChainId" (JSVal.vNum (Int.ofNat targetChainId))

/-- The chain-mismatch validation error message. -/
def chainMismatchError (targetChainId domainChainId : Nat) : String :=
  "Target chain ID " ++ toString targetChainId ++
    " does not match domain chain ID " ++ toString domainChainId

/-- The missing-required-field error message. -/
def missingFieldError (f : String) : String :=
  "Missing required field: " ++ f

/-- The signature-data record returned by `signEnhancedData`. -/
structure EnhancedSigData where
  nonce : JSVal
  deadline : JSVal
  targetChainId : Nat
  signature : List Nat

/-- `signEnhancedData(signer, domain, typeName, data, targetChainId,
useLegacyTypes)`: in enhanced mode, reject a `targetChainId` different
from the domain's `chainId` before anything else; build the message (the
enhanced message gains `targetChainId`); reject the first missing
required field; then call the signer's `_signTypedData` on the selected
type and the message. -/
def signEnhancedData (signTypedData : Domain → List String → List (String × JSVal) → List Nat)
    (domain : Domain) (typeName : TypeName) (data : List (String × JSVal))
    (targetChainId : Nat) (useLegacyTypes : Bool) : Except String EnhancedSigData :=
  if useLegacyTypes = false ∧ targetChainId ≠ domain.chainId then
    .error (chainMismatchError targetChainId domain.chainId)
  else
    let signData := buildSignData data targetChainId useLegacyTypes
    match (typeFields useLegacyTypes typeName).find?
        (fun f => isMissingValue (lookupField signData f)) with
    | some f => .error (missingFieldError f)
    | none =>
      .ok { nonce := (lookupField signData "nonce").getD .vUndefined,
            deadline := (lookupField signData "deadline").getD .vUndefined,
            targetChainId := targetChainId,
            signature := signTypedData domain (typeFields useLegacyTypes typeName) signData }

/-! ## Helper lemmas -/

theorem listStartsWith_self_append (p t : List Char) :
    listStartsWith p (p ++ t) = true := by
  simp [listStartsWith, List.take_left]

theorem listContainsSub_of_startsWith {s sub : List Char}
    (h : listStartsWith sub s = true) : listContainsSub s sub = true := by
  cases s with
  | nil => simpa [listContainsSub] using h
  | cons c t => simp [listContainsSub, h]

/-- Every message the resolver wrapper produces contains the prefix the
callers' catch blocks test for. -/
theorem strIncludes_resolver_wrapped (e : String) :
    strIncludes ("Failed to resolve address to unified ID: " ++ e)
      "Failed to resolve address to unified ID" = true := by
  have hdata : ("Failed to resolve address to unified ID: " ++ e).data
      = "Failed to resolve address to unified ID".data ++ (':' :: ' ' :: e.data) := by
    show "Failed to resolve address to unified ID: ".data ++ e.data = _
    have : "Failed to resolve address to unified ID: ".data
        = "Failed to resolve address to unified ID".data ++ [':', ' '] := by decide
    simp [this]
  unfold strIncludes
  rw [hdata]
  exact listContainsSub_of_startsWith (listStartsWith_self_append _ _)

theorem resolveAnyAddressToUnifiedId_ok {addr : String}
    {cr : String → Except String AddressRole} {r : AddressRole}
    (ha : addr ≠ "") (h : cr addr = .ok r) :
    resolveAnyAddressToUnifiedId addr cr = .ok r := by
  simp [resolveAnyAddressToUnifiedId, ha, h]

theorem resolveAnyAddressToUnifiedId_err {addr : String}
    {cr : String → Except String AddressRole} {e : String}
    (ha : addr ≠ "") (h : cr addr = .error e) :
    resolveAnyAddressToUnifiedId addr cr
      = .error ("Failed to resolve address to unified ID: " ++ e) := by
  simp [resolveAnyAddressToUnifiedId, ha, h]

/-! ## Claim theorems -/

/-- C1. For every packed-family operation (register, primaryChange,
removeSecondary, updateUnifiedId) and all inputs, the 32-byte digest the
encoder signs equals keccak-256 of the standard dynamic ABI encoding of
the operation's tuple concatenated with the nonce as a big-endian 32-byte
unsigned integer. Determinism (same inputs, byte-identical digest) holds
because the digests are pure functions of their arguments. -/
theorem c1_packed_digest_matches_spec (unifiedId userAddress oldId newId : String)
    (nonce : Nat) :
    createSignatureHash unifiedId userAddress nonce
      = keccak256 (abiEncodeStringAddress unifiedId userAddress ++ specNonceBE32 nonce)
  ∧ createPrimaryChangeHash unifiedId userAddress nonce
      = keccak256 (abiEncodeStringAddress unifiedId userAddress ++ specNonceBE32 nonce)
  ∧ createRemoveSecondaryHash unifiedId userAddress nonce
      = keccak256 (abiEncodeStringAddress unifiedId userAddress ++ specNonceBE32 nonce)
  ∧ createUpdateUnifiedIdHash oldId newId nonce
      = keccak256 (abiEncodeStringString oldId newId ++ specNonceBE32 nonce) := by
  refine ⟨?_, ?_, ?_, ?_⟩ <;>
    simp [createSignatureHash, createPrimaryChangeHash, createRemoveSecondaryHash,
      createUpdateUnifiedIdHash, solidityPackBytesUint256, specNonceBE32,
      beBytes_eq_reverse_leBytes]

/-- C9. The packed-hash encoders for register, primaryChange and
removeSecondary are extensionally equal (none encodes an operation-kind
discriminator), so a signature produced for one of the three operations
over given parameters is the same signature for the other two. -/
theorem c9_three_encoders_extensionally_equal (unifiedId addr : String) (nonce : Nat)
    (w : Wallet) :
    createSignatureHash unifiedId addr nonce = createPrimaryChangeHash unifiedId addr nonce
  ∧ createSignatureHash unifiedId addr nonce = createRemoveSecondaryHash unifiedId addr nonce
  ∧ createSignature unifiedId addr nonce w = createPrimaryChangeSignature unifiedId addr nonce w
  ∧ createSignature unifiedId addr nonce w = createRemoveSecondarySignature unifiedId addr nonce w :=
  ⟨rfl, rfl, rfl, rfl⟩

/-- C2. `addSecondaryAddress` computes one packed digest over
`(unifiedId, secondaryAddress, nonce)`; the primary and the secondary
wallet each EIP-191-sign that same single digest, and the submitted
payload carries both signatures (`primarySignature`, `secondarySignature`).
The trace shows exactly the two signing calls over the same digest. -/
theorem c2_add_secondary_two_signatures_one_digest (unifiedId : String)
    (pw sw : Wallet) (cfg : Config) (env : ChainEnv) (n : Nat)
    (h : env.nonce unifiedId = .ok n) :
    addSecondaryAddress unifiedId pw sw cfg env
      = (.ok { action := "initiate-add-secondary-address", unifiedId := unifiedId,
               secondaryAddress := sw.address, nonce := toString n,
               primarySignature := signMessage pw (createSignatureHash unifiedId sw.address n),
               secondarySignature := signMessage sw (createSignatureHash unifiedId sw.address n),
               chainId := cfg.chainId,
               options := createOptions n createOptionsDefaultOffset env.now },
         [.nonceRead unifiedId,
          .ecdsa pw.address (createSignatureHash unifiedId sw.address n),
          .ecdsa sw.address (createSignatureHash unifiedId sw.address n),
          .httpPost "/add-secondary-address"]) := by
  simp [addSecondaryAddress, h]

theorem c2_add_secondary_two_signatures_one_digest_witness :
    addSecondaryAddress "alice_01" ⟨"0xaa", fun _ => [1]⟩ ⟨"0xbb", fun _ => [2]⟩
        ⟨"80002"⟩ ⟨fun _ => .ok 7, 1000⟩
      = (.ok { action := "initiate-add-secondary-address", unifiedId := "alice_01",
               secondaryAddress := "0xbb", nonce := toString 7,
               primarySignature :=
                 signMessage ⟨"0xaa", fun _ => [1]⟩ (createSignatureHash "alice_01" "0xbb" 7),
               secondarySignature :=
                 signMessage ⟨"0xbb", fun _ => [2]⟩ (createSignatureHash "alice_01" "0xbb" 7),
               chainId := "80002",
               options := createOptions 7 createOptionsDefaultOffset 1000 },
         [.nonceRead "alice_01",
          .ecdsa "0xaa" (createSignatureHash "alice_01" "0xbb" 7),
          .ecdsa "0xbb" (createSignatureHash "alice_01" "0xbb" 7),
          .httpPost "/add-secondary-address"]) :=
  c2_add_secondary_two_signatures_one_digest "alice_01" ⟨"0xaa", fun _ => [1]⟩
    ⟨"0xbb", fun _ => [2]⟩ ⟨"80002"⟩ ⟨fun _ => .ok 7, 1000⟩ 7 rfl

/-- C10. Every `registerUnifiedId` payload holds the identical signature in
`masterSignature` and `primarySignature`, produced by a single EIP-191
signing call with the one supplied wallet (the trace holds exactly one
signing event), and `userAddress` is that wallet's own address. -/
theorem c10_register_master_equals_primary (unifiedId : String) (w : Wallet)
    (cfg : Config) (env : ChainEnv) (n : Nat) (h : env.nonce unifiedId = .ok n) :
    ∃ p, (registerUnifiedId unifiedId w cfg env).1 = .ok p
      ∧ p.masterSignature = p.primarySignature
      ∧ p.masterSignature = signMessage w (createSignatureHash unifiedId w.address n)
      ∧ p.userAddress = w.address
      ∧ (registerUnifiedId unifiedId w cfg env).2
          = [.nonceRead unifiedId,
             .ecdsa w.address (createSignatureHash unifiedId w.address n),
             .httpPost "/set-unifiedid"] := by
  simp only [registerUnifiedId, h]
  exact ⟨_, rfl, rfl, rfl, rfl, trivial⟩

theorem c10_register_master_equals_primary_witness :
    ∃ p, (registerUnifiedId "alice_01" ⟨"0xaa", fun _ => [1]⟩ ⟨"80002"⟩
            ⟨fun _ => .ok 7, 1000⟩).1 = .ok p
      ∧ p.masterSignature = p.primarySignature
      ∧ p.masterSignature
          = signMessage ⟨"0xaa", fun _ => [1]⟩ (createSignatureHash "alice_01" "0xaa" 7)
      ∧ p.userAddress = "0xaa"
      ∧ (registerUnifiedId "alice_01" ⟨"0xaa", fun _ => [1]⟩ ⟨"80002"⟩
            ⟨fun _ => .ok 7, 1000⟩).2
          = [.nonceRead "alice_01",
             .ecdsa "0xaa" (createSignatureHash "alice_01" "0xaa" 7),
             .httpPost "/set-unifiedid"] :=
  c10_register_master_equals_primary "alice_01" ⟨"0xaa", fun _ => [1]⟩ ⟨"80002"⟩
    ⟨fun _ => .ok 7, 1000⟩ 7 rfl

/-- C7. Every `changePrimaryAddress` build whose current and new wallet
addresses coincide (case-insensitively, hence in particular when equal) is
rejected with the "Current and new addresses cannot be the same" error
with an empty effect trace: the nonce is never read and no signer is
invoked. The builder is a pure function of its arguments, so repeated
sequential builds are rejected identically. -/
theorem c7_change_primary_same_address_rejected (unifiedId : String)
    (cw nw : Wallet) (cfg : Config) (env : ChainEnv)
    (h : jsToLower cw.address = jsToLower nw.address) :
    changePrimaryAddress unifiedId cw nw cfg env
      = (.error "Current and new addresses cannot be the same", []) := by
  simp [changePrimaryAddress, h]

theorem c7_change_primary_same_address_rejected_witness :
    changePrimaryAddress "alice_01" ⟨"0xAbCd", fun _ => [1]⟩ ⟨"0xaBcD", fun _ => [2]⟩
        ⟨"80002"⟩ ⟨fun _ => .error "no rpc", 1000⟩
      = (.error "Current and new addresses cannot be the same", []) :=
  c7_change_primary_same_address_rejected "alice_01" ⟨"0xAbCd", fun _ => [1]⟩
    ⟨"0xaBcD", fun _ => [2]⟩ ⟨"80002"⟩ ⟨fun _ => .error "no rpc", 1000⟩ (by decide)

/-- C8. Every operation builder computes the deadline as the current unix
time plus a fixed offset defaulting to 3600 seconds, and the options blob
attached to the payload is exactly the standard ABI encoding of
`(uint256 nonce, uint256 deadline)`. -/
theorem c8_options_blob_nonce_deadline (unifiedId newId secondaryAddress : String)
    (w pw sw cw nw : Wallet) (cfg : Config) (env : ChainEnv) (n : Nat)
    (hn : env.nonce unifiedId = .ok n)
    (hw : jsToLower cw.address ≠ jsToLower nw.address)
    (hid : unifiedId ≠ newId) :
    Except.map RegisterPayload.options (registerUnifiedId unifiedId w cfg env).1
        = .ok (abiEncodeUintPair n (env.now + 3600))
  ∧ Except.map AddSecondaryPayload.options (addSecondaryAddress unifiedId pw sw cfg env).1
        = .ok (abiEncodeUintPair n (env.now + 3600))
  ∧ Except.map ChangePrimaryPayload.options (changePrimaryAddress unifiedId cw nw cfg env).1
        = .ok (abiEncodeUintPair n (env.now + 3600))
  ∧ Except.map ChangePrimaryPayload.deadline (changePrimaryAddress unifiedId cw nw cfg env).1
        = .ok (env.now + 3600)
  ∧ Except.map RemoveSecondaryPayload.options
        (removeSecondaryAddress unifiedId secondaryAddress pw cfg env).1
        = .ok (abiEncodeUintPair n (env.now + 3600))
  ∧ Except.map UpdateUnifiedIdPayload.options (updateUnifiedId unifiedId newId w cfg env).1
        = .ok (abiEncodeUintPair n (env.now + 3600))
  ∧ Except.map UpdateUnifiedIdPayload.deadline (updateUnifiedId unifiedId newId w cfg env).1
        = .ok (env.now + 3600)
  ∧ createOptions n createOptionsDefaultOffset env.now = abiEncodeUintPair n (env.now + 3600) := by
  refine ⟨?_, ?_, ?_, ?_, ?_, ?_, ?_, rfl⟩ <;>
    simp [registerUnifiedId, addSecondaryAddress, changePrimaryAddress,
      removeSecondaryAddress, updateUnifiedId, hn, hw, hid, Except.map,
      createOptions, createOptionsDefaultOffset]

theorem c8_options_blob_nonce_deadline_witness :
    Except.map RegisterPayload.options
        (registerUnifiedId "alice_01" ⟨"0xaa", fun _ => [1]⟩ ⟨"80002"⟩
          ⟨fun _ => .ok 7, 1000⟩).1
      = .ok (abiEncodeUintPair 7 (1000 + 3600))
  ∧ Except.map AddSecondaryPayload.options
        (addSecondaryAddress "alice_01" ⟨"0xaa", fun _ => [1]⟩ ⟨"0xbb", fun _ => [2]⟩
          ⟨"80002"⟩ ⟨fun _ => .ok 7, 1000⟩).1
      = .ok (abiEncodeUintPair 7 (1000 + 3600))
  ∧ Except.map ChangePrimaryPayload.options
        (changePrimaryAddress "alice_01" ⟨"0xaa", fun _ => [1]⟩ ⟨"0xbb", fun _ => [2]⟩
          ⟨"80002"⟩ ⟨fun _ => .ok 7, 1000⟩).1
      = .ok (abiEncodeUintPair 7 (1000 + 3600))
  ∧ Except.map ChangePrimaryPayload.deadline
        (changePrimaryAddress "alice_01" ⟨"0xaa", fun _ => [1]⟩ ⟨"0xbb", fun _ => [2]⟩
          ⟨"80002"⟩ ⟨fun _ => .ok 7, 1000⟩).1
      = .ok (1000 + 3600)
  ∧ Except.map RemoveSecondaryPayload.options
        (removeSecondaryAddress "alice_01" "0xcc" ⟨"0xaa", fun _ => [1]⟩
          ⟨"80002"⟩ ⟨fun _ => .ok 7, 1000⟩).1
      = .ok (abiEncodeUintPair 7 (1000 + 3600))
  ∧ Except.map UpdateUnifiedIdPayload.options
        (updateUnifiedId "alice_01" "alice_02" ⟨"0xaa", fun _ => [1]⟩
          ⟨"80002"⟩ ⟨fun _ => .ok 7, 1000⟩).1
      = .ok (abiEncodeUintPair 7 (1000 + 3600))
  ∧ Except.map UpdateUnifiedIdPayload.deadline
        (updateUnifiedId "alice_01" "alice_02" ⟨"0xaa", fun _ => [1]⟩
          ⟨"80002"⟩ ⟨fun _ => .ok 7, 1000⟩).1
      = .ok (1000 + 3600)
  ∧ createOptions 7 createOptionsDefaultOffset 1000 = abiEncodeUintPair 7 (1000 + 3600) :=
  c8_options_blob_nonce_deadline "alice_01" "alice_02" "0xcc" ⟨"0xaa", fun _ => [1]⟩
    ⟨"0xaa", fun _ => [1]⟩ ⟨"0xbb", fun _ => [2]⟩ ⟨"0xaa", fun _ => [1]⟩
    ⟨"0xbb", fun _ => [2]⟩ ⟨"80002"⟩ ⟨fun _ => .ok 7, 1000⟩ 7 rfl (by decide) (by decide)

/-- C3 counterexample. On a failed registry resolution the chain reader's
`resolveAnyAddressToUnifiedId` does NOT return the
`{unifiedId: "", isPrimary: false, isSecondary: false}` sentinel: it
throws the wrapped "Failed to resolve address to unified ID" error. -/
theorem c3_resolve_failure_throws_not_sentinel :
    resolveAnyAddressToUnifiedId "0x1111111111111111111111111111111111111111"
        (fun _ => .error "network unreachable")
      = .error "Failed to resolve address to unified ID: network unreachable"
  ∧ resolveAnyAddressToUnifiedId "0x1111111111111111111111111111111111111111"
        (fun _ => .error "network unreachable")
      ≠ .ok { unifiedId := "", isPrimary := false, isSecondary := false } :=
  ⟨by rfl, fun h => Except.noConfusion h⟩

/-- C3 (amended). `resolveAnyAddressToUnifiedId` throws: the
"addressToCheck is required" validation error on a missing address, and a
wrapped "Failed to resolve address to unified ID: ..." error whenever the
underlying registry call fails; a successful call's tuple (which is the
empty/false sentinel for an unknown address, produced by the contract
itself) is passed through unchanged. -/
theorem c3_resolve_wraps_failures (addr : String)
    (cr : String → Except String AddressRole) :
    (addr ≠ "" → ∀ e, cr addr = .error e →
       resolveAnyAddressToUnifiedId addr cr
         = .error ("Failed to resolve address to unified ID: " ++ e))
  ∧ (addr ≠ "" → ∀ r, cr addr = .ok r → resolveAnyAddressToUnifiedId addr cr = .ok r)
  ∧ (addr = "" → resolveAnyAddressToUnifiedId addr cr
       = .error "addressToCheck is required in resolveAnyAddressToUnifiedId") :=
  ⟨fun ha _ he => resolveAnyAddressToUnifiedId_err ha he,
   fun ha _ hr => resolveAnyAddressToUnifiedId_ok ha hr,
   fun ha => by simp [resolveAnyAddressToUnifiedId, ha]⟩

theorem c3_resolve_wraps_failures_witness :
    resolveAnyAddressToUnifiedId "0x1212" (fun _ => .error "boom")
        = .error "Failed to resolve address to unified ID: boom"
  ∧ resolveAnyAddressToUnifiedId "0x1212"
        (fun _ => .ok { unifiedId := "", isPrimary := false, isSecondary := false })
        = .ok { unifiedId := "", isPrimary := false, isSecondary := false } :=
  ⟨(c3_resolve_wraps_failures "0x1212" (fun _ => .error "boom")).1 (by decide) "boom" rfl,
   (c3_resolve_wraps_failures "0x1212"
      (fun _ => .ok { unifiedId := "", isPrimary := false, isSecondary := false })).2.1
     (by decide) _ rfl⟩

/-- C4 counterexample. `getRegistrationFees("0x000...0", "0")` does NOT
throw a validation error: the string "0" is truthy in JavaScript, so the
zero fee passes validation and the contract IS called — the result (or
wrapped failure) of `getRequiredTokenAmount` surfaces. -/
theorem c4_string_zero_fee_reaches_contract :
    getRegistrationFees (JSVal.vStr "0x0000000000000000000000000000000000000000")
        (JSVal.vStr "0") (fun _ _ => .ok 42) = .ok "42"
  ∧ getRegistrationFees (JSVal.vStr "0x0000000000000000000000000000000000000000")
        (JSVal.vStr "0") (fun _ _ => .error "contract reached")
      = .error "Failed to get registration fees: contract reached" :=
  ⟨by rfl, by rfl⟩

/-- C4 (amended). `getRegistrationFees` throws its validation errors
before any contract call (the result is the same for every contract
function) whenever the token, or else the fee, is FALSY — missing,
`null`, the empty string, or the number 0. The decimal string "0" is
truthy and is not rejected. -/
theorem c4_falsy_params_rejected_before_call (token registrarFees : JSVal)
    (call : JSVal → JSVal → Except String Nat) :
    (jsFalsy token = true →
       getRegistrationFees token registrarFees call
         = .error "token is required in getRegistrationFees")
  ∧ (jsFalsy token = false → jsFalsy registrarFees = true →
       getRegistrationFees token registrarFees call
         = .error "registrarFees is required in getRegistrationFees") :=
  ⟨fun ht => by simp [getRegistrationFees, ht],
   fun ht hf => by simp [getRegistrationFees, ht, hf]⟩

theorem c4_falsy_params_rejected_before_call_witness :
    getRegistrationFees (JSVal.vStr "0x0000000000000000000000000000000000000000")
        (JSVal.vNum 0) (fun _ _ => .ok 42)
      = .error "registrarFees is required in getRegistrationFees"
  ∧ getRegistrationFees JSVal.vUndefined (JSVal.vNum 5) (fun _ _ => .ok 42)
      = .error "token is required in getRegistrationFees" :=
  ⟨(c4_falsy_params_rejected_before_call
      (JSVal.vStr "0x0000000000000000000000000000000000000000") (JSVal.vNum 0)
      (fun _ _ => .ok 42)).2 (by decide) (by decide),
   (c4_falsy_params_rejected_before_call JSVal.vUndefined (JSVal.vNum 5)
      (fun _ _ => .ok 42)).1 (by decide)⟩

/-- C6 counterexample. A genuine network error in the resolution call is
NOT re-thrown by `isPrimaryAddressAlreadyRegistered` /
`isSecondaryAddressAlreadyRegistered`: the resolver wraps every failure
with the "Failed to resolve address to unified ID" prefix that the catch
blocks match, so the error is converted to `false`. -/
theorem c6_network_error_swallowed_to_false :
    isPrimaryAddressAlreadyRegistered "0x2222222222222222222222222222222222222222"
        (fun _ => .error "connection refused") = .ok false
  ∧ isSecondaryAddressAlreadyRegistered "0x2222222222222222222222222222222222222222"
        (fun _ => .error "connection refused") = .ok false :=
  ⟨by rfl, by rfl⟩

/-- C6 (amended). The two role probes return the corresponding flag of a
successful resolution, and return `false` whenever the resolution call
fails FOR ANY REASON (not-found reverts and genuine network or contract
errors alike), because every such failure carries the wrapper prefix the
catch block tests for; only errors lacking the prefix (the synchronous
missing-parameter validation) propagate. -/
theorem c6_probes_swallow_all_resolution_failures (addr : String)
    (cr : String → Except String AddressRole) (ha : addr ≠ "") :
    (∀ r, cr addr = .ok r →
       isPrimaryAddressAlreadyRegistered addr cr = .ok r.isPrimary
     ∧ isSecondaryAddressAlreadyRegistered addr cr = .ok r.isSecondary)
  ∧ (∀ e, cr addr = .error e →
       isPrimaryAddressAlreadyRegistered addr cr = .ok false
     ∧ isSecondaryAddressAlreadyRegistered addr cr = .ok false) := by
  constructor
  · intro r hr
    constructor <;>
      simp [isPrimaryAddressAlreadyRegistered, isSecondaryAddressAlreadyRegistered,
        ha, resolveAnyAddressToUnifiedId_ok ha hr]
  · intro e he
    constructor <;>
      simp [isPrimaryAddressAlreadyRegistered, isSecondaryAddressAlreadyRegistered,
        ha, resolveAnyAddressToUnifiedId_err ha he, strIncludes_resolver_wrapped]

theorem c6_probes_swallow_all_resolution_failures_witness :
    isPrimaryAddressAlreadyRegistered "0x3434" (fun _ => .error "socket hang up") = .ok false
  ∧ isSecondaryAddressAlreadyRegistered "0x3434"
      (fun _ => .ok { unifiedId := "bob", isPrimary := false, isSecondary := true })
      = .ok true :=
  ⟨((c6_probes_swallow_all_resolution_failures "0x3434" (fun _ => .error "socket hang up")
      (by decide)).2 "socket hang up" rfl).1,
   ((c6_probes_swallow_all_resolution_failures "0x3434"
      (fun _ => .ok { unifiedId := "bob", isPrimary := false, isSecondary := true })
      (by decide)).1 _ rfl).2⟩

/-- C5. In enhanced (non-legacy) typed-data signing, a `targetChainId`
different from the domain's `chainId` fails with the chain-mismatch
validation error for EVERY signer (the signer is never consulted); in
legacy mode the message handed to the signer is the caller's data
unchanged — no `targetChainId` field is added — and no chain check is
applied: the legacy result depends on `targetChainId` only through the
reported metadata field. -/
theorem c5_enhanced_chain_check_legacy_none
    (signT : Domain → List String → List (String × JSVal) → List Nat)
    (domain : Domain) (typeName : TypeName) (data : List (String × JSVal)) (tc : Nat) :
    (tc ≠ domain.chainId →
       signEnhancedData signT domain typeName data tc false
         = .error (chainMismatchError tc domain.chainId))
  ∧ buildSignData data tc true = data
  ∧ signEnhancedData signT domain typeName data tc true
      = Except.map (fun r => { r with targetChainId := tc })
          (signEnhancedData signT domain typeName data domain.chainId true) := by
  refine ⟨fun h => ?_, rfl, ?_⟩
  · simp [signEnhancedData, h]
  · simp only [signEnhancedData, buildSignData, if_pos rfl]
    cases hf : (typeFields true typeName).find?
        (fun f => isMissingValue (lookupField data f)) with
    | some f => simp [Except.map, hf]
    | none => simp [Except.map, hf]

theorem c5_enhanced_chain_check_legacy_none_witness :
    signEnhancedData (fun _ _ _ => [9]) ⟨"UnifiedID", "1", 1, "0xcc"⟩
        TypeName.registerUnifiedIdT [] 5 false
      = .error (chainMismatchError 5 1)
  ∧ buildSignData [] 5 true = [] :=
  ⟨(c5_enhanced_chain_check_legacy_none (fun _ _ _ => [9]) ⟨"UnifiedID", "1", 1, "0xcc"⟩
      TypeName.registerUnifiedIdT [] 5).1 (by decide),
   (c5_enhanced_chain_check_legacy_none (fun _ _ _ => [9]) ⟨"UnifiedID", "1", 1, "0xcc"⟩
      TypeName.registerUnifiedIdT [] 5).2.1⟩

end UIDSDK






